import Mathlib

/-!
# Verification of the ETF-shop portfolio accounting and rule-evaluation engine

Shallow embedding of the calculation core of the `trading_strategies`
repository (a Next.js/TypeScript ETF portfolio tracker) and proofs about it.

Modelling conventions:
* TypeScript `number` values are embedded as `ℚ` (the concrete inputs the
  program meets are decimal, so rational arithmetic agrees with the
  double-precision evaluation on every concrete instance checked here);
* dates are embedded by their epoch timestamps (`Int`), which is exactly the
  key the source compares after `new Date(s).getTime()`;
* JavaScript `Array.prototype.sort` with a numeric comparator is stable
  (ECMAScript 2019), so it is embedded as a stable insertion sort on the
  comparator's key;
* a JavaScript division whose result is non-finite (`Infinity`/`NaN`, i.e.
  a zero divisor) is embedded as `Option ℚ` with `none` for the non-finite
  case.
-/

namespace ETFShop

/-- A holding row (`Holding` in `src/types`): one purchase lot. `buyDate` is
the epoch timestamp of the purchase date, `buyPrice` and `quantity` are the
stored numbers. Fields not consulted by the lot-matching engine (symbol,
name, createdAt) are represented by the numeric key `id`. -/
structure Holding where
  id : Nat
  buyDate : Int
  buyPrice : ℚ
  quantity : ℚ
  deriving Repr, DecidableEq

/-- The consumption loop of `sellFIFO` (`src/lib/calculations.ts` lines
63–86): walk the (already sorted) lots, selling each lot in full while the
remaining-to-sell amount covers it, splitting the first lot it does not
cover, and passing every later lot through untouched. Returns the
`(lot, quantitySold)` pairs and the updated remaining-lot list, both in
iteration order, exactly as the source pushes them. -/
def consumeLots : List Holding → ℚ → List (Holding × ℚ) × List Holding
  | [], _ => ([], [])
  | h :: t, remainingToSell =>
    if remainingToSell ≤ 0 then
      let (s, r) := consumeLots t remainingToSell
      (s, h :: r)
    else if h.quantity ≤ remainingToSell then
      let (s, r) := consumeLots t (remainingToSell - h.quantity)
      ((h, h.quantity) :: s, r)
    else
      let (s, r) := consumeLots t 0
      ((h, remainingToSell) :: s, { h with quantity := h.quantity - remainingToSell } :: r)

/-- Stable insertion of a lot into a list sorted by `buyDate` ascending:
the new element goes before the first strictly later lot, i.e. after every
lot whose date is ≤ its own (stability of the JS sort). -/
def insertAsc (h : Holding) : List Holding → List Holding
  | [] => [h]
  | x :: xs => if h.buyDate ≤ x.buyDate then h :: x :: xs else x :: insertAsc h xs

/-- `[...holdings].sort((a, b) => dateA - dateB)`: stable sort by purchase
date ascending (oldest first), `src/lib/calculations.ts` lines 59–61. -/
def sortByDateAsc : List Holding → List Holding
  | [] => []
  | h :: t => insertAsc h (sortByDateAsc t)

/-- Stable insertion for the descending order: the new element goes before
the first strictly older lot. -/
def insertDesc (h : Holding) : List Holding → List Holding
  | [] => [h]
  | x :: xs => if x.buyDate ≤ h.buyDate then h :: x :: xs else x :: insertDesc h xs

/-- Stable sort by purchase date descending (newest first): the FIFO sort
with the comparator reversed. -/
def sortByDateDesc : List Holding → List Holding
  | [] => []
  | h :: t => insertDesc h (sortByDateDesc t)

/-- `sellFIFO` (`src/lib/calculations.ts` lines 54–89): sort the candidate
lots by purchase date ascending, then run the consumption loop. -/
def sellFIFO (holdings : List Holding) (quantityToSell : ℚ) :
    List (Holding × ℚ) × List Holding :=
  consumeLots (sortByDateAsc holdings) quantityToSell

/-- Modelled from the spec: the LIFO lot-matching variant. The source ships
only `sellFIFO` (`src/lib/calculations.ts`) while LIFO is referenced
throughout the repository as the active sell policy (the app title
"LIFO Trading Portfolio Manager", the strategy page's "LIFO Selling", the
settings seed comment "3% profit target for LIFO"); the matching function
itself is absent from the sources. Per the spec §4.4 it is the same
consumption algorithm as `sellFIFO` with the sort order reversed (newest
first). -/
def sellLIFO (holdings : List Holding) (quantityToSell : ℚ) :
    List (Holding × ℚ) × List Holding :=
  consumeLots (sortByDateDesc holdings) quantityToSell

/-- `getDynamicProfitTarget` (`src/lib/calculations.ts` lines 172–184):
scale the base profit target by the capital-utilization percentage, with
strictly-greater threshold tests. -/
def getDynamicProfitTarget (baseTarget usedCapitalPercent : ℚ) : ℚ :=
  if 90 < usedCapitalPercent then baseTarget * 0.52
  else if 80 < usedCapitalPercent then baseTarget * 0.67
  else if 70 < usedCapitalPercent then baseTarget * 0.83
  else baseTarget

/-- The `Settings` record (`src/types`), with the numeric fields embedded
as `ℚ`. -/
structure Settings where
  profitTargetPercent : ℚ
  minProfitAmount : ℚ
  perTransactionAmount : ℚ
  totalCapital : ℚ
  minVolume : ℚ
  averagingThreshold : ℚ
  maxDailyBuys : ℚ
  maxDailySells : ℚ
  deriving Repr, DecidableEq

/-- `calculateTargetPrice` (`src/lib/calculations.ts` lines 9–17): the
maximum of the percentage target and the minimum-absolute-profit target. -/
def calculateTargetPrice (avgPrice quantity : ℚ) (settings : Settings) : ℚ :=
  let targetByPercent := avgPrice * (1 + settings.profitTargetPercent / 100)
  let targetByMinProfit := (avgPrice * quantity + settings.minProfitAmount) / quantity
  max targetByPercent targetByMinProfit

/-- Three concrete lots of quantity 10 each, oldest (`lot1`) to newest
(`lot3`), used by the spec's worked FIFO/LIFO example. -/
def lot1 : Holding := { id := 1, buyDate := 100, buyPrice := 50, quantity := 10 }

def lot2 : Holding := { id := 2, buyDate := 200, buyPrice := 52, quantity := 10 }

def lot3 : Holding := { id := 3, buyDate := 300, buyPrice := 54, quantity := 10 }

/-- The settings record holding the documented defaults. -/
def defaultSettings : Settings :=
  { profitTargetPercent := 6, minProfitAmount := 500, perTransactionAmount := 10000,
    totalCapital := 500000, minVolume := 15000, averagingThreshold := 2.5,
    maxDailyBuys := 1, maxDailySells := 1 }

theorem insertAsc_eq_orderedInsert (h : Holding) :
    ∀ l, insertAsc h l =
      List.orderedInsert (fun a b : Holding => a.buyDate ≤ b.buyDate) h l
  | [] => rfl
  | x :: xs => by
      simp only [insertAsc, List.orderedInsert]
      rw [insertAsc_eq_orderedInsert h xs]

theorem sortByDateAsc_eq_insertionSort :
    ∀ l, sortByDateAsc l =
      List.insertionSort (fun a b : Holding => a.buyDate ≤ b.buyDate) l
  | [] => rfl
  | x :: xs => by
      simp only [sortByDateAsc, List.insertionSort]
      rw [sortByDateAsc_eq_insertionSort xs, insertAsc_eq_orderedInsert]

theorem insertDesc_eq_orderedInsert (h : Holding) :
    ∀ l, insertDesc h l =
      List.orderedInsert (fun a b : Holding => b.buyDate ≤ a.buyDate) h l
  | [] => rfl
  | x :: xs => by
      simp only [insertDesc, List.orderedInsert]
      rw [insertDesc_eq_orderedInsert h xs]

theorem sortByDateDesc_eq_insertionSort :
    ∀ l, sortByDateDesc l =
      List.insertionSort (fun a b : Holding => b.buyDate ≤ a.buyDate) l
  | [] => rfl
  | x :: xs => by
      simp only [sortByDateDesc, List.insertionSort]
      rw [sortByDateDesc_eq_insertionSort xs, insertDesc_eq_orderedInsert]

theorem sortByDateAsc_perm (l : List Holding) : (sortByDateAsc l).Perm l := by
  rw [sortByDateAsc_eq_insertionSort]
  exact List.perm_insertionSort _ l

theorem sortByDateAsc_sorted (l : List Holding) :
    List.Sorted (fun a b : Holding => a.buyDate ≤ b.buyDate) (sortByDateAsc l) := by
  haveI : IsTotal Holding (fun a b : Holding => a.buyDate ≤ b.buyDate) :=
    ⟨fun a b => Int.le_total _ _⟩
  haveI : IsTrans Holding (fun a b : Holding => a.buyDate ≤ b.buyDate) :=
    ⟨fun _ _ _ hab hbc => le_trans hab hbc⟩
  rw [sortByDateAsc_eq_insertionSort]
  exact List.sorted_insertionSort _ l

theorem sortByDateDesc_perm (l : List Holding) : (sortByDateDesc l).Perm l := by
  rw [sortByDateDesc_eq_insertionSort]
  exact List.perm_insertionSort _ l

theorem sortByDateDesc_sorted (l : List Holding) :
    List.Sorted (fun a b : Holding => b.buyDate ≤ a.buyDate) (sortByDateDesc l) := by
  haveI : IsTotal Holding (fun a b : Holding => b.buyDate ≤ a.buyDate) :=
    ⟨fun a b => Int.le_total _ _⟩
  haveI : IsTrans Holding (fun a b : Holding => b.buyDate ≤ a.buyDate) :=
    ⟨fun _ _ _ hab hbc => le_trans hbc hab⟩
  rw [sortByDateDesc_eq_insertionSort]
  exact List.sorted_insertionSort _ l

/-- C1, counterexample: at exactly 90% capital utilization the code falls
into the `> 80` branch and returns `6 × 0.67 = 4.02`, not the claimed base
target `6`. -/
theorem c1_boundary_counterexample : ¬ getDynamicProfitTarget 6 90 = 6 := by
  norm_num [getDynamicProfitTarget]

/-- C1 (amended): dynamic profit-target scaling maps base target `b` and
utilization `u` to `b×0.52` when `u > 90`, `b×0.67` when `80 < u ≤ 90`,
`b×0.83` when `70 < u ≤ 80`, and `b` when `u ≤ 70`; the `> 90` boundary is
exclusive, but 90 exactly lands in the `> 80` branch, so
`getDynamicProfitTarget 6 91 = 3.12`, `getDynamicProfitTarget 6 90 = 4.02`,
and `getDynamicProfitTarget 6 50 = 6`. -/
theorem c1_dynamic_profit_target :
    (∀ b u : ℚ,
      (90 < u → getDynamicProfitTarget b u = b * 0.52) ∧
      (80 < u → u ≤ 90 → getDynamicProfitTarget b u = b * 0.67) ∧
      (70 < u → u ≤ 80 → getDynamicProfitTarget b u = b * 0.83) ∧
      (u ≤ 70 → getDynamicProfitTarget b u = b)) ∧
    getDynamicProfitTarget 6 91 = 3.12 ∧
    getDynamicProfitTarget 6 90 = 4.02 ∧
    getDynamicProfitTarget 6 50 = 6 := by
  refine ⟨fun b u => ⟨?_, ?_, ?_, ?_⟩, by norm_num [getDynamicProfitTarget],
    by norm_num [getDynamicProfitTarget], by norm_num [getDynamicProfitTarget]⟩
  · intro h
    rw [getDynamicProfitTarget, if_pos h]
  · intro h1 h2
    rw [getDynamicProfitTarget, if_neg (by linarith), if_pos h1]
  · intro h1 h2
    rw [getDynamicProfitTarget, if_neg (by linarith), if_neg (by linarith), if_pos h1]
  · intro h
    rw [getDynamicProfitTarget, if_neg (by linarith), if_neg (by linarith),
      if_neg (by linarith)]

/-- Witness for C1: each branch of the amended scaling rule evaluated at a
concrete utilization. -/
theorem c1_dynamic_profit_target_witness :
    getDynamicProfitTarget 2 95 = 2 * 0.52 ∧ getDynamicProfitTarget 2 85 = 2 * 0.67 ∧
    getDynamicProfitTarget 2 75 = 2 * 0.83 ∧ getDynamicProfitTarget 2 60 = 2 :=
  ⟨(c1_dynamic_profit_target.1 2 95).1 (by norm_num),
   (c1_dynamic_profit_target.1 2 85).2.1 (by norm_num) (by norm_num),
   (c1_dynamic_profit_target.1 2 75).2.2.1 (by norm_num) (by norm_num),
   (c1_dynamic_profit_target.1 2 60).2.2.2 (by norm_num)⟩

/-- C4: `sellFIFO` sorts the candidate lots by purchase date ascending
(a stable sort producing a permutation of the input, sorted oldest first)
and runs the consumption loop on that order; concretely, selling 15 from
three lots of quantity [10,10,10] (oldest → newest) consumes `lot1` fully
plus 5 from `lot2`, leaving `lot2` reduced to 5 and `lot3` untouched. -/
theorem c4_sellFIFO_oldest_first :
    (∀ lots : List Holding, (sortByDateAsc lots).Perm lots ∧
      List.Sorted (fun a b : Holding => a.buyDate ≤ b.buyDate) (sortByDateAsc lots)) ∧
    (∀ (lots : List Holding) (q : ℚ),
      sellFIFO lots q = consumeLots (sortByDateAsc lots) q) ∧
    sellFIFO [lot1, lot2, lot3] 15 =
      ([(lot1, 10), (lot2, 5)], [{ lot2 with quantity := 5 }, lot3]) := by
  refine ⟨fun lots => ⟨sortByDateAsc_perm lots, sortByDateAsc_sorted lots⟩,
    fun lots q => rfl, ?_⟩
  norm_num [sellFIFO, sortByDateAsc, insertAsc, consumeLots, lot1, lot2, lot3]

/-- C2: the LIFO variant (modelled from the spec, absent from the sources)
runs the same consumption loop as `sellFIFO` with the sort order reversed:
lots are taken newest first (a stable descending sort that permutes the
input), and selling 15 from the three lots [10,10,10] consumes the newest
lot fully plus 5 from the middle lot, leaving the oldest untouched and the
middle lot reduced to 5. -/
theorem c2_sellLIFO_newest_first :
    (∀ (lots : List Holding) (q : ℚ),
      sellLIFO lots q = consumeLots (sortByDateDesc lots) q ∧
      sellFIFO lots q = consumeLots (sortByDateAsc lots) q) ∧
    (∀ lots : List Holding, (sortByDateDesc lots).Perm lots ∧
      List.Sorted (fun a b : Holding => b.buyDate ≤ a.buyDate) (sortByDateDesc lots)) ∧
    sellLIFO [lot1, lot2, lot3] 15 =
      ([(lot3, 10), (lot2, 5)], [{ lot2 with quantity := 5 }, lot1]) := by
  refine ⟨fun lots q => ⟨rfl, rfl⟩,
    fun lots => ⟨sortByDateDesc_perm lots, sortByDateDesc_sorted lots⟩, ?_⟩
  norm_num [sellLIFO, sortByDateDesc, insertDesc, consumeLots, lot1, lot2, lot3]

/-- C7: for every average price, positive quantity, and settings with
non-negative `profitTargetPercent` and `minProfitAmount`, the computed
target price is at least the average price (the minimum-profit candidate
already is, and the result is the max of the two candidates). -/
theorem c7_target_price_ge_avg (avgPrice quantity : ℚ) (settings : Settings)
    (hq : 0 < quantity) (_hp : 0 ≤ settings.profitTargetPercent)
    (hm : 0 ≤ settings.minProfitAmount) :
    avgPrice ≤ calculateTargetPrice avgPrice quantity settings := by
  unfold calculateTargetPrice
  have h2 : avgPrice ≤ (avgPrice * quantity + settings.minProfitAmount) / quantity := by
    rw [le_div_iff₀ hq]
    nlinarith
  exact le_trans h2 (le_max_right _ _)

/-- Witness for C7: the default settings with a small position. -/
theorem c7_target_price_ge_avg_witness :
    (0 : ℚ) < 5 ∧ (0 : ℚ) ≤ defaultSettings.profitTargetPercent ∧
    (0 : ℚ) ≤ defaultSettings.minProfitAmount ∧
    (100 : ℚ) ≤ calculateTargetPrice 100 5 defaultSettings :=
  ⟨by norm_num, by norm_num [defaultSettings], by norm_num [defaultSettings],
   c7_target_price_ge_avg 100 5 defaultSettings (by norm_num)
     (by norm_num [defaultSettings]) (by norm_num [defaultSettings])⟩

/-- A capital transaction (`CapitalTransaction` in `src/types`): `type` is
`'ADD' | 'WITHDRAW'`; `date`, `notes` and `id` are not consulted by the
summary computation. -/
inductive TxType
  | ADD
  | WITHDRAW
  deriving Repr, DecidableEq, BEq

structure CapitalTransaction where
  type : TxType
  amount : ℚ
  deriving Repr, DecidableEq

/-- `transactions.filter(t => t.type === 'ADD').reduce((sum, t) => sum + t.amount, 0)`
(`CapitalPage`, capital page lines 147–149). -/
def totalAdditions (transactions : List CapitalTransaction) : ℚ :=
  (transactions.filter fun t => t.type == TxType.ADD).foldl (fun sum t => sum + t.amount) 0

theorem beq_add_add : (TxType.ADD == TxType.ADD) = true := rfl

theorem beq_wd_add : (TxType.WITHDRAW == TxType.ADD) = false := rfl

theorem beq_add_wd : (TxType.ADD == TxType.WITHDRAW) = false := rfl

theorem beq_wd_wd : (TxType.WITHDRAW == TxType.WITHDRAW) = true := rfl

/-- `transactions.filter(t => t.type === 'WITHDRAW').reduce(...)` (lines 150–152). -/
def totalWithdrawals (transactions : List CapitalTransaction) : ℚ :=
  (transactions.filter fun t => t.type == TxType.WITHDRAW).foldl (fun sum t => sum + t.amount) 0

/-- `holdingsData.reduce((sum, h) => sum + h.buyPrice * h.quantity, 0)`
(capital page lines 101–105, and `getCapitalSummary` in the store). -/
def totalInvestedOf (holdings : List Holding) : ℚ :=
  holdings.foldl (fun sum h => sum + h.buyPrice * h.quantity) 0

/-- The three derived figures of the capital page (lines 154–157). -/
structure CapitalFigures where
  netCapital : ℚ
  availableCapital : ℚ
  usedPercent : ℚ
  deriving Repr, DecidableEq

/-- The capital summary of `CapitalPage` (capital page lines 147–157):
`netCapital = baseCapital + totalAdditions − totalWithdrawals`,
`availableCapital = netCapital − totalInvested + totalRealizedProfit`,
`usedPercent = netCapital > 0 ? totalInvested / netCapital × 100 : 0`.
The store's `getCapitalSummary` (`src/store/index.ts` lines 128–169)
computes the same three figures, naming the net figure `totalCapital`. -/
def capitalSummary (baseCapital : ℚ) (transactions : List CapitalTransaction)
    (totalInvested totalRealizedProfit : ℚ) : CapitalFigures :=
  let netCapital := baseCapital + totalAdditions transactions - totalWithdrawals transactions
  { netCapital := netCapital
    availableCapital := netCapital - totalInvested + totalRealizedProfit
    usedPercent := if 0 < netCapital then totalInvested / netCapital * 100 else 0 }

/-- C6: the capital summary satisfies the three ledger equations, with the
used percentage defined as 0 whenever the net capital is not positive, and
the spec's concrete instance (base 500000, one ADD of 50000, one WITHDRAW
of 20000, invested 100000, realized profit 5000) yields net 530000,
available 435000 and a used percentage of 1000/53 ≈ 18.87%. -/
theorem c6_capital_summary :
    (∀ (base : ℚ) (txs : List CapitalTransaction) (inv profit : ℚ),
      (capitalSummary base txs inv profit).netCapital =
        base + totalAdditions txs - totalWithdrawals txs ∧
      (capitalSummary base txs inv profit).availableCapital =
        (capitalSummary base txs inv profit).netCapital - inv + profit ∧
      (0 < (capitalSummary base txs inv profit).netCapital →
        (capitalSummary base txs inv profit).usedPercent =
          inv / (capitalSummary base txs inv profit).netCapital * 100) ∧
      ((capitalSummary base txs inv profit).netCapital ≤ 0 →
        (capitalSummary base txs inv profit).usedPercent = 0)) ∧
    capitalSummary 500000 [⟨TxType.ADD, 50000⟩, ⟨TxType.WITHDRAW, 20000⟩] 100000 5000 =
      ⟨530000, 435000, 1000 / 53⟩ ∧
    |(capitalSummary 500000 [⟨TxType.ADD, 50000⟩, ⟨TxType.WITHDRAW, 20000⟩]
        100000 5000).usedPercent - 18.87| < 1 / 100 := by
  refine ⟨fun base txs inv profit => ⟨rfl, rfl, ?_, ?_⟩, ?_, ?_⟩
  · intro h
    simp only [capitalSummary] at h ⊢
    rw [if_pos h]
  · intro h
    simp only [capitalSummary] at h ⊢
    rw [if_neg (not_lt.mpr h)]
  · norm_num [capitalSummary, totalAdditions, totalWithdrawals, List.filter,
      beq_add_add, beq_wd_add, beq_add_wd, beq_wd_wd]
  · norm_num [capitalSummary, totalAdditions, totalWithdrawals, List.filter,
      beq_add_add, beq_wd_add, beq_add_wd, beq_wd_wd, abs_lt]

/-- Witness for C6: the positive-net branch at the spec's concrete instance
and the non-positive-net branch at a withdrawn-out ledger. -/
theorem c6_capital_summary_witness :
    (capitalSummary 500000 [⟨TxType.ADD, 50000⟩, ⟨TxType.WITHDRAW, 20000⟩]
        100000 5000).usedPercent =
      100000 / (capitalSummary 500000 [⟨TxType.ADD, 50000⟩, ⟨TxType.WITHDRAW, 20000⟩]
        100000 5000).netCapital * 100 ∧
    (capitalSummary 0 [⟨TxType.WITHDRAW, 10⟩] 5 0).usedPercent = 0 :=
  ⟨((c6_capital_summary.1 500000 [⟨TxType.ADD, 50000⟩, ⟨TxType.WITHDRAW, 20000⟩]
      100000 5000).2.2.1
      (by norm_num [capitalSummary, totalAdditions, totalWithdrawals, List.filter,
        beq_add_add, beq_wd_add, beq_add_wd, beq_wd_wd])),
   ((c6_capital_summary.1 0 [⟨TxType.WITHDRAW, 10⟩] 5 0).2.2.2
      (by norm_num [capitalSummary, totalAdditions, totalWithdrawals, List.filter,
        beq_add_add, beq_wd_add, beq_add_wd, beq_wd_wd]))⟩

/-- A JavaScript division embedded with its non-finite semantics made
explicit: a zero divisor yields `Infinity`/`NaN` (never an exception), which
no rational represents, so that case is `none`. -/
def jsDiv (a b : ℚ) : Option ℚ :=
  if b = 0 then none else some (a / b)

/-- `notionalPLPercent = ((cmp - holding.buyPrice) / holding.buyPrice) * 100`
(`getHoldingsWithCalculations`, `src/store/index.ts` line 101). The division
is written exactly as in the source — there is no zero-price guard around
it — with `jsDiv` supplying the JS division semantics. -/
def notionalPLPercent (cmp buyPrice : ℚ) : Option ℚ :=
  (jsDiv (cmp - buyPrice) buyPrice).map (· * 100)

/-- C8, counterexample: with a purchase price of 0 and current price 5 the
derived notional P/L percentage is the non-finite `(5 − 0)/0 × 100`
(`Infinity`), not the claimed 0. -/
theorem c8_zero_price_counterexample : ¬ notionalPLPercent 5 0 = some 0 := by
  simp [notionalPLPercent, jsDiv]

/-- C8 (amended): the store's notional P/L percentage is computed with no
zero-price guard: for every current price, a lot with `buyPrice = 0` yields
a non-finite value (JS `Infinity`, or `NaN` when `cmp = 0` too) rather
than 0; the computation never throws, and for every nonzero purchase price
it equals `(cmp − buyPrice)/buyPrice × 100`. -/
theorem c8_notional_pl_percent_unguarded :
    (∀ cmp : ℚ, notionalPLPercent cmp 0 = none) ∧
    (∀ cmp buyPrice : ℚ, buyPrice ≠ 0 →
      notionalPLPercent cmp buyPrice = some ((cmp - buyPrice) / buyPrice * 100)) := by
  refine ⟨fun cmp => ?_, fun cmp buyPrice h => ?_⟩
  · simp [notionalPLPercent, jsDiv]
  · simp [notionalPLPercent, jsDiv, h]

/-- Witness for C8: a 10% gain on a lot bought at 100. -/
theorem c8_notional_pl_percent_witness :
    notionalPLPercent 110 100 = some ((110 - 100) / 100 * 100) :=
  c8_notional_pl_percent_unguarded.2 110 100 (by norm_num)

/-- A stored holdings row (`holdings` table in `src/lib/db.ts`): `buy_date`
is embedded as the epoch timestamp of the stored date string. -/
structure HoldingRow where
  id : Nat
  etfId : Nat
  buyDate : Int
  buyPrice : ℚ
  quantity : ℚ
  deriving Repr, DecidableEq

/-- `updateHolding` (`src/lib/db.ts` lines 241–246):
`UPDATE holdings SET buy_price = ?, quantity = ? WHERE id = ?` — the
statement writes only the price and quantity columns. -/
def updateHolding (id : Nat) (buyPrice quantity : ℚ) (rows : List HoldingRow) :
    List HoldingRow :=
  rows.map fun r =>
    if r.id = id then { r with buyPrice := buyPrice, quantity := quantity } else r

/-- The `PUT /api/holdings` handler (`src/app/api/holdings/route.ts` lines
51–62): it extracts `id`, `buyPrice`, `quantity` and `buyDate` from the
request body and calls `updateHolding(id, buyPrice, quantity, buyDate)`;
`updateHolding`'s three-parameter signature drops the fourth argument, so
the extracted `buyDate` (the `_buyDate` parameter here) never reaches the
database. -/
def putHolding (id : Nat) (buyPrice quantity : ℚ) (_buyDate : Int)
    (rows : List HoldingRow) : List HoldingRow :=
  updateHolding id buyPrice quantity rows

/-- C9: evaluating the PUT pipeline at a concrete correction. A lot stored
with purchase date 10 is updated with corrected price 110, quantity 6 and
corrected date 20; the stored row keeps date 10 — the supplied date is
dropped — while price and quantity are updated. -/
theorem c9_update_drops_buy_date :
    putHolding 1 110 6 20 [{ id := 1, etfId := 7, buyDate := 10, buyPrice := 100, quantity := 5 }] =
      [{ id := 1, etfId := 7, buyDate := 10, buyPrice := 110, quantity := 6 }] ∧
    ¬ (putHolding 1 110 6 20
        [{ id := 1, etfId := 7, buyDate := 10, buyPrice := 100, quantity := 5 }]).map
          HoldingRow.buyDate = [20] := by
  refine ⟨?_, ?_⟩ <;> norm_num [putHolding, updateHolding]

/-- The keys of the `settings` table consulted by `getSettings`
(`src/lib/db.ts`), one constructor per stored string key. -/
inductive SettingKey
  | profit_target_percent
  | min_profit_amount
  | per_transaction_amount
  | total_capital
  | min_volume
  | averaging_threshold
  | max_daily_buys
  | max_daily_sells
  deriving Repr, DecidableEq

/-- JavaScript `parseFloat(value) || default`: the stored value is `none`
when the key is absent or its string parses to `NaN`, and `some v` when it
parses to the number `v`; `0` is falsy, so both `none` and `some 0` fall
back to the default. -/
def jsOr (parsed : Option ℚ) (default : ℚ) : ℚ :=
  match parsed with
  | none => default
  | some v => if v = 0 then default else v

/-- `getSettings` (`src/lib/db.ts` lines 322–341): read the settings rows
and build the typed record, applying `parseFloat(stored) || default` to
each field. `store` maps each key to the parsed number of its stored
string, `none` for a missing row or a non-numeric value. -/
def getSettings (store : SettingKey → Option ℚ) : Settings :=
  { profitTargetPercent := jsOr (store SettingKey.profit_target_percent) 6
    minProfitAmount := jsOr (store SettingKey.min_profit_amount) 500
    perTransactionAmount := jsOr (store SettingKey.per_transaction_amount) 10000
    totalCapital := jsOr (store SettingKey.total_capital) 500000
    minVolume := jsOr (store SettingKey.min_volume) 15000
    averagingThreshold := jsOr (store SettingKey.averaging_threshold) 2.5
    maxDailyBuys := jsOr (store SettingKey.max_daily_buys) 1
    maxDailySells := jsOr (store SettingKey.max_daily_sells) 1 }

theorem jsOr_ne_zero (parsed : Option ℚ) (default : ℚ) (h : default ≠ 0) :
    jsOr parsed default ≠ 0 := by
  match parsed with
  | none => exact h
  | some v =>
      by_cases hv : v = 0
      · simp [jsOr, hv]
        exact h
      · simp [jsOr, hv]

/-- C10: `getSettings` substitutes the documented default both when a key
is absent and when the stored string parses to `NaN` or to `0` (the `||`
fallback on the parsed number); consequently no numeric field of the
returned settings is ever 0; in particular a stored `min_profit_amount` of
"0" is reported as 500 and a stored `profit_target_percent` of "0" as 6. -/
theorem c10_getSettings_falsy_fallback :
    (∀ store : SettingKey → Option ℚ,
      (store SettingKey.min_profit_amount = some 0 →
        (getSettings store).minProfitAmount = 500) ∧
      (store SettingKey.profit_target_percent = some 0 →
        (getSettings store).profitTargetPercent = 6) ∧
      (store SettingKey.min_profit_amount = none →
        (getSettings store).minProfitAmount = 500) ∧
      (store SettingKey.profit_target_percent = none →
        (getSettings store).profitTargetPercent = 6)) ∧
    (∀ store : SettingKey → Option ℚ,
      (getSettings store).profitTargetPercent ≠ 0 ∧
      (getSettings store).minProfitAmount ≠ 0 ∧
      (getSettings store).perTransactionAmount ≠ 0 ∧
      (getSettings store).totalCapital ≠ 0 ∧
      (getSettings store).minVolume ≠ 0 ∧
      (getSettings store).averagingThreshold ≠ 0 ∧
      (getSettings store).maxDailyBuys ≠ 0 ∧
      (getSettings store).maxDailySells ≠ 0) := by
  constructor
  · intro store
    refine ⟨fun h => ?_, fun h => ?_, fun h => ?_, fun h => ?_⟩ <;>
      simp [getSettings, jsOr, h]
  · intro store
    exact ⟨jsOr_ne_zero _ _ (by norm_num), jsOr_ne_zero _ _ (by norm_num),
      jsOr_ne_zero _ _ (by norm_num), jsOr_ne_zero _ _ (by norm_num),
      jsOr_ne_zero _ _ (by norm_num), jsOr_ne_zero _ _ (by norm_num),
      jsOr_ne_zero _ _ (by norm_num), jsOr_ne_zero _ _ (by norm_num)⟩

/-- A settings table storing "0" for the two example keys and nothing
else. -/
def zeroStore : SettingKey → Option ℚ := fun k =>
  match k with
  | SettingKey.min_profit_amount => some 0
  | SettingKey.profit_target_percent => some 0
  | _ => none

/-- Witness for C10: the example store with both zero-valued keys. -/
theorem c10_getSettings_falsy_fallback_witness :
    (getSettings zeroStore).minProfitAmount = 500 ∧
    (getSettings zeroStore).profitTargetPercent = 6 ∧
    (getSettings zeroStore).maxDailyBuys ≠ 0 :=
  ⟨(c10_getSettings_falsy_fallback.1 zeroStore).1 rfl,
   (c10_getSettings_falsy_fallback.1 zeroStore).2.1 rfl,
   (c10_getSettings_falsy_fallback.2 zeroStore).2.2.2.2.2.2.1⟩

/-- An `etfs` row, reduced to the two columns the POST handlers consult;
the symbol string is embedded by a numeric code. -/
structure ETFRow where
  id : Nat
  symbol : Nat
  deriving Repr, DecidableEq

/-- A `daily_activity` row (`src/lib/db.ts` lines 467–472), keyed by its
date. -/
structure DailyActivity where
  buy_count : Nat
  sell_count : Nat
  deriving Repr, DecidableEq

/-- `getDailyActivity` (`src/lib/db.ts` lines 474–477): look up the row for
a date; the table (a partial map from date keys to counters) is embedded as
`Int → Option DailyActivity`. -/
def getDailyActivity (activity : Int → Option DailyActivity) (date : Int) :
    Option DailyActivity :=
  activity date

/-- `incrementDailyBuy` (`src/lib/db.ts` lines 479–486):
`INSERT ... VALUES (?, 1, 0) ON CONFLICT(date) DO UPDATE SET buy_count = buy_count + 1`. -/
def incrementDailyBuy (activity : Int → Option DailyActivity) (date : Int) :
    Int → Option DailyActivity :=
  fun d =>
    if d = date then
      some (match activity date with
        | none => { buy_count := 1, sell_count := 0 }
        | some a => { a with buy_count := a.buy_count + 1 })
    else activity d

/-- `incrementDailySell` (`src/lib/db.ts` lines 488–495): the sell-side
upsert, initial row `(?, 0, 1)`. -/
def incrementDailySell (activity : Int → Option DailyActivity) (date : Int) :
    Int → Option DailyActivity :=
  fun d =>
    if d = date then
      some (match activity date with
        | none => { buy_count := 0, sell_count := 1 }
        | some a => { a with sell_count := a.sell_count + 1 })
    else activity d

/-- `getETFBySymbol` (`src/lib/db.ts` lines 177–184). -/
def getETFBySymbol (etfs : List ETFRow) (symbol : Nat) : Option ETFRow :=
  etfs.find? fun e => e.symbol == symbol

/-- A `trades` row with the three derived columns stored at creation. -/
structure TradeRow where
  id : Nat
  etfId : Nat
  buyDate : Int
  sellDate : Int
  buyPrice : ℚ
  sellPrice : ℚ
  quantity : ℚ
  profit : ℚ
  profitPercent : ℚ
  holdingDays : Int
  deriving Repr, DecidableEq

/-- `addTrade` (`src/lib/db.ts` lines 271–292): the derived columns
computed at insertion time — `profit = (sellPrice − buyPrice) × quantity`,
`profitPercent = (sellPrice − buyPrice)/buyPrice × 100`,
`holdingDays = Math.floor((sellMs − buyMs)/86400000)`. -/
def mkTrade (id etfId : Nat) (buyDate sellDate : Int)
    (buyPrice sellPrice quantity : ℚ) : TradeRow :=
  { id := id, etfId := etfId, buyDate := buyDate, sellDate := sellDate,
    buyPrice := buyPrice, sellPrice := sellPrice, quantity := quantity,
    profit := (sellPrice - buyPrice) * quantity,
    profitPercent := (sellPrice - buyPrice) / buyPrice * 100,
    holdingDays := Int.floor (((sellDate - buyDate : Int) : ℚ) / (1000 * 60 * 60 * 24)) }

/-- The storage state the two POST handlers act on. -/
structure ApiState where
  etfs : List ETFRow
  holdings : List HoldingRow
  trades : List TradeRow
  activity : Int → Option DailyActivity
  nextHoldingId : Nat
  nextTradeId : Nat
  settings : Settings

/-- `activity?.buy_count || 0` (`src/app/api/holdings/route.ts` line 26). -/
def buyCountAt (st : ApiState) (date : Int) : Nat :=
  match getDailyActivity st.activity date with
  | some a => a.buy_count
  | none => 0

/-- `activity?.sell_count || 0` (trades route line 24). -/
def sellCountAt (st : ApiState) (date : Int) : Nat :=
  match getDailyActivity st.activity date with
  | some a => a.sell_count
  | none => 0

/-- The condition of the advisory warning at
`src/app/api/holdings/route.ts` line 28:
`settings.maxDailyBuys && buyCount >= settings.maxDailyBuys` (JS truthiness
on the left operand). Its only effect in the handler is a `console.warn`. -/
def buyLimitExceeded (st : ApiState) (buyDate : Int) : Prop :=
  st.settings.maxDailyBuys ≠ 0 ∧ st.settings.maxDailyBuys ≤ (buyCountAt st buyDate : ℚ)

/-- The HTTP outcomes of the POST handlers: the success JSON
`{ id, success: true }` or the 404 `ETF not found`. (The catch-all 500 path
is unreachable in this embedding: every operation below is total.) -/
inductive ApiResponse
  | ok (id : Nat)
  | etfNotFound
  deriving Repr, DecidableEq

/-- `POST /api/holdings` (`src/app/api/holdings/route.ts` lines 16–49):
read the body, evaluate the soft daily-buy limit (`buyLimitExceeded` — a
`console.warn` only, no effect on control flow), 404 when the symbol is
unknown, otherwise `addHolding` then `incrementDailyBuy`. -/
def postHolding (st : ApiState) (etfSymbol : Nat) (buyDate : Int)
    (buyPrice quantity : ℚ) : ApiResponse × ApiState :=
  match getETFBySymbol st.etfs etfSymbol with
  | none => (ApiResponse.etfNotFound, st)
  | some etf =>
      (ApiResponse.ok st.nextHoldingId,
       { st with
          holdings := st.holdings ++
            [{ id := st.nextHoldingId, etfId := etf.id, buyDate := buyDate,
               buyPrice := buyPrice, quantity := quantity }],
          nextHoldingId := st.nextHoldingId + 1,
          activity := incrementDailyBuy st.activity buyDate })

/-- `POST /api/trades` (trades route lines 16–45): evaluate the soft
daily-sell limit (warning only), 404 when the symbol is unknown, otherwise
`addTrade` then `incrementDailySell`. -/
def postTrade (st : ApiState) (etfSymbol : Nat) (buyDate sellDate : Int)
    (buyPrice sellPrice quantity : ℚ) : ApiResponse × ApiState :=
  match getETFBySymbol st.etfs etfSymbol with
  | none => (ApiResponse.etfNotFound, st)
  | some etf =>
      (ApiResponse.ok st.nextTradeId,
       { st with
          trades := st.trades ++
            [mkTrade st.nextTradeId etf.id buyDate sellDate buyPrice sellPrice quantity],
          nextTradeId := st.nextTradeId + 1,
          activity := incrementDailySell st.activity sellDate })

/-- C3: for every storage state — in particular for every prior value of
the per-date counters, including values at or above
`maxDailyBuys`/`maxDailySells` — recording a buy or a sell with a known
symbol succeeds (returns the success response with the new row id) and
increments exactly the corresponding per-date counter by one; the limit
check is advisory only and never blocks the operation. -/
theorem c3_soft_limits_never_block (st : ApiState) (sym : Nat) (etf : ETFRow)
    (buyDate sellDate : Int) (buyPrice sellPrice quantity : ℚ)
    (hfind : getETFBySymbol st.etfs sym = some etf) :
    ((postHolding st sym buyDate buyPrice quantity).1 = ApiResponse.ok st.nextHoldingId ∧
      buyCountAt (postHolding st sym buyDate buyPrice quantity).2 buyDate =
        buyCountAt st buyDate + 1) ∧
    ((postTrade st sym buyDate sellDate buyPrice sellPrice quantity).1 =
        ApiResponse.ok st.nextTradeId ∧
      sellCountAt (postTrade st sym buyDate sellDate buyPrice sellPrice quantity).2 sellDate =
        sellCountAt st sellDate + 1) := by
  refine ⟨⟨?_, ?_⟩, ?_, ?_⟩
  · simp [postHolding, hfind]
  · simp only [postHolding, hfind]
    cases h : st.activity buyDate <;>
      simp [buyCountAt, getDailyActivity, incrementDailyBuy, h]
  · simp [postTrade, hfind]
  · simp only [postTrade, hfind]
    cases h : st.activity sellDate <;>
      simp [sellCountAt, getDailyActivity, incrementDailySell, h]

/-- A state whose counters for date 7 are already far beyond the default
caps of 1. -/
def limitState : ApiState :=
  { etfs := [{ id := 9, symbol := 42 }], holdings := [], trades := [],
    activity := fun d => if d = 7 then some { buy_count := 5, sell_count := 5 } else none,
    nextHoldingId := 1, nextTradeId := 1, settings := defaultSettings }

/-- Witness for C3: with both counters at 5 against caps of 1 (the limit
condition holds), a buy and a sell still succeed and bump the counters
to 6. -/
theorem c3_soft_limits_never_block_witness :
    getETFBySymbol limitState.etfs 42 = some { id := 9, symbol := 42 } ∧
    buyLimitExceeded limitState 7 ∧
    (postHolding limitState 42 7 100 5).1 = ApiResponse.ok 1 ∧
    buyCountAt (postHolding limitState 42 7 100 5).2 7 = 6 ∧
    (postTrade limitState 42 7 7 100 110 5).1 = ApiResponse.ok 1 ∧
    sellCountAt (postTrade limitState 42 7 7 100 110 5).2 7 = 6 := by
  have h := c3_soft_limits_never_block limitState 42 { id := 9, symbol := 42 } 7 7 100 110 5 rfl
  refine ⟨rfl, ⟨?_, ?_⟩, h.1.1, ?_, h.2.1, ?_⟩
  · norm_num [limitState, defaultSettings]
  · norm_num [limitState, defaultSettings, buyCountAt, getDailyActivity]
  · rw [h.1.2]
    rfl
  · rw [h.2.2]
    rfl

/-- A cash-flow record (`CashFlow` in `src/types`): date (epoch
timestamp), amount, and flow kind. -/
inductive CashFlowType
  | INVESTMENT
  | RETURN
  | CAPITAL_ADD
  | CAPITAL_WITHDRAW
  deriving Repr, DecidableEq

structure CashFlow where
  date : Int
  amount : ℚ
  type : CashFlowType
  deriving Repr, DecidableEq

/-- A signed, dated flow as built inside `calculateXIRR`. -/
structure DatedFlow where
  date : Int
  amount : ℚ
  deriving Repr, DecidableEq

/-- The sign mapping of `calculateXIRR` (`src/lib/calculations.ts` lines
112–115): investments and capital additions become `-|amount|`, everything
else `+|amount|`. -/
def signedAmount (cf : CashFlow) : ℚ :=
  if cf.type = CashFlowType.INVESTMENT ∨ cf.type = CashFlowType.CAPITAL_ADD then
    -|cf.amount|
  else |cf.amount|

/-- Stable insertion for the flow sort `(a, b) => dateA - dateB`. -/
def insertFlow (f : DatedFlow) : List DatedFlow → List DatedFlow
  | [] => [f]
  | x :: xs => if f.date ≤ x.date then f :: x :: xs else x :: insertFlow f xs

/-- The stable ascending-date sort applied to the flow list
(`src/lib/calculations.ts` line 117). -/
def sortFlowsByDate : List DatedFlow → List DatedFlow
  | [] => []
  | f :: t => insertFlow f (sortFlowsByDate t)

/-- `allFlows` (`src/lib/calculations.ts` lines 111–117): the signed input
flows plus the synthetic current-value flow dated today, sorted by date. -/
def allFlows (cashFlows : List CashFlow) (today : Int) (currentValue : ℚ) :
    List DatedFlow :=
  sortFlowsByDate
    ((cashFlows.map fun cf => { date := cf.date, amount := signedAmount cf }) ++
      [{ date := today, amount := currentValue }])

/-- The Newton–Raphson loop of `calculateXIRR` (`src/lib/calculations.ts`
lines 139–156), with the NPV and NPV-derivative evaluations abstracted as
the functions `npv` and `npvd` (in the source they evaluate
`Σ amount/(1+r)^years` and its derivative in floating point; their values
do not influence the control-flow properties proved here). `fuel` is the
remaining iteration budget (100 at the top-level call); the second
component of the result counts the iterations actually executed. Exits:
derivative-magnitude guard (`|f'| < 1e-10` breaks before dividing),
convergence (`|newRate − rate| < 1e-7` returns `newRate × 100`), fuel
exhausted (returns the last estimate `rate × 100`). -/
def newtonRun (npv npvd : ℚ → ℚ) : Nat → ℚ → ℚ × Nat
  | 0, rate => (rate * 100, 0)
  | fuel + 1, rate =>
      if |npvd rate| < 1 / 10 ^ 10 then (rate * 100, 0)
      else if |rate - npv rate / npvd rate - rate| < 1 / 10 ^ 7 then
        ((rate - npv rate / npvd rate) * 100, 1)
      else
        ((newtonRun npv npvd fuel (rate - npv rate / npvd rate)).1,
         (newtonRun npv npvd fuel (rate - npv rate / npvd rate)).2 + 1)

/-- Division checked against the near-zero-divisor blow-up the source
guards: it fails on any divisor of magnitude below `1e-10`. -/
def divGuarded (a b : ℚ) : Except Unit ℚ :=
  if |b| < 1 / 10 ^ 10 then Except.error () else Except.ok (a / b)

/-- The same loop with every division routed through `divGuarded`: it can
only return `Except.ok` if no iteration ever divides by a derivative of
magnitude below `1e-10`. -/
def newtonRunChecked (npv npvd : ℚ → ℚ) : Nat → ℚ → Except Unit (ℚ × Nat)
  | 0, rate => Except.ok (rate * 100, 0)
  | fuel + 1, rate =>
      if |npvd rate| < 1 / 10 ^ 10 then Except.ok (rate * 100, 0)
      else
        match divGuarded (npv rate) (npvd rate) with
        | Except.error e => Except.error e
        | Except.ok q =>
            if |rate - q - rate| < 1 / 10 ^ 7 then Except.ok ((rate - q) * 100, 1)
            else
              match newtonRunChecked npv npvd fuel (rate - q) with
              | Except.error e => Except.error e
              | Except.ok r => Except.ok (r.1, r.2 + 1)

/-- `calculateXIRR` (`src/lib/calculations.ts` lines 107–157): empty input
returns 0 immediately; the `allFlows.length < 2` re-check returns 0 without
iterating; otherwise run Newton–Raphson from the initial guess 0.1 with an
iteration budget of 100. `npvOf`/`npvdOf` abstract the floating-point NPV
evaluation built from the flow list; the result pairs the returned
percentage with the number of iterations executed. -/
def calculateXIRR (npvOf npvdOf : List DatedFlow → ℚ → ℚ)
    (cashFlows : List CashFlow) (today : Int) (currentValue : ℚ) : ℚ × Nat :=
  if cashFlows.length = 0 then (0, 0)
  else if (allFlows cashFlows today currentValue).length < 2 then (0, 0)
  else
    newtonRun (npvOf (allFlows cashFlows today currentValue))
      (npvdOf (allFlows cashFlows today currentValue)) 100 (1 / 10)

theorem newtonRun_iterations_le (npv npvd : ℚ → ℚ) :
    ∀ (fuel : Nat) (rate : ℚ), (newtonRun npv npvd fuel rate).2 ≤ fuel := by
  intro fuel
  induction fuel with
  | zero => intro rate; simp [newtonRun]
  | succ fuel ih =>
      intro rate
      simp only [newtonRun]
      split
      · simp
      · split
        · simp
        · exact Nat.succ_le_succ (ih _)

theorem newtonRunChecked_eq_ok (npv npvd : ℚ → ℚ) :
    ∀ (fuel : Nat) (rate : ℚ),
      newtonRunChecked npv npvd fuel rate = Except.ok (newtonRun npv npvd fuel rate) := by
  intro fuel
  induction fuel with
  | zero => intro rate; rfl
  | succ fuel ih =>
      intro rate
      by_cases h : |npvd rate| < 1 / 10 ^ 10
      · simp only [newtonRunChecked, newtonRun, if_pos h]
      · have hd : divGuarded (npv rate) (npvd rate) =
            Except.ok (npv rate / npvd rate) := by
          rw [divGuarded, if_neg h]
        by_cases h2 : |rate - npv rate / npvd rate - rate| < 1 / 10 ^ 7
        · simp only [newtonRunChecked, newtonRun, if_neg h, hd, if_pos h2]
        · simp only [newtonRunChecked, newtonRun, if_neg h, hd, if_neg h2, ih]

theorem insertFlow_length (f : DatedFlow) :
    ∀ l : List DatedFlow, (insertFlow f l).length = l.length + 1
  | [] => rfl
  | x :: xs => by
      simp only [insertFlow]
      split
      · rfl
      · simp [insertFlow_length f xs]

theorem sortFlowsByDate_length :
    ∀ l : List DatedFlow, (sortFlowsByDate l).length = l.length
  | [] => rfl
  | f :: t => by simp [sortFlowsByDate, insertFlow_length, sortFlowsByDate_length t]

/-- C5: the XIRR solver always terminates and never divides unguarded —
the loop executes at most its fuel's worth (100 at the top level) of
iterations for every NPV evaluation; every division it performs has a
divisor of magnitude at least `1e-10` (the checked variant never fails);
with zero fuel it returns its last estimate `rate × 100`; appending the
synthetic flow always yields input-length + 1 flows, so fewer than 2 total
flows means an empty input, which returns 0 with no iteration. -/
theorem c5_xirr_solver_terminates :
    (∀ (npv npvd : ℚ → ℚ) (fuel : Nat) (rate : ℚ),
      (newtonRun npv npvd fuel rate).2 ≤ fuel) ∧
    (∀ (npv npvd : ℚ → ℚ) (fuel : Nat) (rate : ℚ),
      newtonRunChecked npv npvd fuel rate = Except.ok (newtonRun npv npvd fuel rate)) ∧
    (∀ (npv npvd : ℚ → ℚ) (rate : ℚ), (newtonRun npv npvd 0 rate).1 = rate * 100) ∧
    (∀ (cashFlows : List CashFlow) (today : Int) (cv : ℚ),
      (allFlows cashFlows today cv).length = cashFlows.length + 1) ∧
    (∀ (npvOf npvdOf : List DatedFlow → ℚ → ℚ) (today : Int) (cv : ℚ),
      calculateXIRR npvOf npvdOf [] today cv = (0, 0)) ∧
    (∀ (npvOf npvdOf : List DatedFlow → ℚ → ℚ) (cashFlows : List CashFlow)
        (today : Int) (cv : ℚ),
      (calculateXIRR npvOf npvdOf cashFlows today cv).2 ≤ 100) := by
  refine ⟨newtonRun_iterations_le, newtonRunChecked_eq_ok,
    fun npv npvd rate => rfl, fun cashFlows today cv => ?_,
    fun npvOf npvdOf today cv => rfl, fun npvOf npvdOf cashFlows today cv => ?_⟩
  · simp [allFlows, sortFlowsByDate_length]
  · unfold calculateXIRR
    split
    · simp
    · split
      · simp
      · exact newtonRun_iterations_le _ _ 100 _

end ETFShop
